import Mathlib

/-!
Verification development for the ExperiPulse notification relay.

The relay is embedded shallowly: the SQLite database becomes an explicit
state value (`DB`), the FastAPI endpoint handlers become pure functions
from a request and a state to a response and a new state, the Telegram
send call becomes a function of an explicit `PlatformOutcome` oracle, and
Python exceptions become `Except` values threaded through the handler
exactly where the source raises and catches them.  Wall-clock time
(`datetime.now()`) and the random token drawn by `secrets.token_urlsafe`
are passed in as explicit parameters.
-/

/-- One row of the `users` table (`src/server/database.py`):
`user_id INTEGER PRIMARY KEY, api_key TEXT UNIQUE NOT NULL,
chat_id INTEGER NOT NULL, created_at, last_active`.  Timestamps are
abstracted to naturals. -/
structure User where
  userId : Int
  apiKey : String
  chatId : Int
  createdAt : Nat
  lastActive : Nat
  deriving DecidableEq

/-- One row of the `notifications` table:
`id INTEGER PRIMARY KEY AUTOINCREMENT, user_id, message TEXT NOT NULL,
metadata TEXT, timestamp, status TEXT`.  `metadata` is the stored TEXT
column, `none` modelling SQL NULL. -/
structure Notification where
  id : Nat
  userId : Int
  message : String
  metadata : Option String
  timestamp : Nat
  status : String
  deriving DecidableEq

/-- The database state: the two tables the relay core touches, plus the
AUTOINCREMENT counter for `notifications.id` (never reused). -/
structure DB where
  users : List User
  notifications : List Notification
  nextNotificationId : Nat
  deriving DecidableEq

/-- The dict returned by `APIServer.get_user_by_api_key`
(`src/server/api.py` lines 52-56). -/
structure UserInfo where
  userId : Int
  chatId : Int
  lastActive : Nat
  deriving DecidableEq

/-- Embeds `APIServer.get_user_by_api_key` (`src/server/api.py` lines
33-57): SELECT the row whose `api_key` matches, and on a hit UPDATE its
`last_active` to `now`; the returned dict carries the `last_active` value
read by the SELECT, i.e. the value from before the update. -/
def getUserByApiKey (db : DB) (apiKey : String) (now : Nat) :
    Option UserInfo × DB :=
  match db.users.find? (fun u => u.apiKey == apiKey) with
  | some u =>
      (some ⟨u.userId, u.chatId, u.lastActive⟩,
       { db with users := db.users.map (fun v =>
           if v.apiKey == apiKey then { v with lastActive := now } else v) })
  | none => (none, db)

/-- The possible outcomes of the single `requests.post` call to the
Telegram API: an HTTP response with some status code, or a raised
exception (network failure, or the 10-second timeout expiring). -/
inductive PlatformOutcome where
  | response (statusCode : Nat)
  | networkError (msg : String)
  | timedOut
  deriving DecidableEq

/-- The `timeout=10` argument of the `requests.post` call
(`src/server/api.py` line 73), in seconds. -/
def telegramTimeoutSeconds : Nat := 10

/-- Embeds the `requests.post(url, json=payload, timeout=10)` call:
returns the status code, or raises (models both a network-level failure
and a timeout as the raised exception the `except` clause catches). -/
def requestsPost (outcome : PlatformOutcome) : Except String Nat :=
  match outcome with
  | .response c => .ok c
  | .networkError m => .error m
  | .timedOut => .error "timed out"

/-- The fixed notification banner prepended to every outgoing message
(`src/server/api.py` line 64).  The first four characters reproduce the
source file's literal bytes exactly (the emoji in the source is stored
double-encoded). -/
def messageBanner : String :=
  "ðŸ”¬ **Experiment Notification**\n\n"

/-- The `formatted_message` built in `send_telegram_message`. -/
def formatMessage (message : String) : String := messageBanner ++ message

/-- Embeds `APIServer.send_telegram_message` (`src/server/api.py` lines
59-77).  Returns the boolean result together with the list of send
attempts issued (chat id and exact wire payload), so the one-attempt and
no-delivery properties are statable.  `try`/`except` around the post call
becomes a match on the `Except` result: every raised exception is
converted to `false`, and a response is `true` exactly when its status
code is 200. -/
def sendTelegramMessage (chatId : Int) (message : String)
    (outcome : PlatformOutcome) : Bool × List (Int × String) :=
  let attempts := [(chatId, formatMessage message)]
  match requestsPost outcome with
  | .ok c => (c == 200, attempts)
  | .error _ => (false, attempts)

/-- The caller-supplied `metadata` dict: a JSON object with string
values, as an association list. -/
abbrev MetaDict := List (String × String)

/-- Backslash-escaping of `"` and `\` as performed by `json.dumps` on
string values. -/
def escapeJson (s : String) : String :=
  String.mk (s.data.foldr (fun c acc =>
    if c = '\\' ∨ c = '"' then '\\' :: c :: acc else c :: acc) [])

/-- Embeds `json.dumps` on a string-valued dict, with the default
separators: a brace-delimited, comma-separated list of
`"key": "value"` pairs. -/
def jsonDumps (m : MetaDict) : String :=
  "\x7b" ++ String.intercalate ", "
    (m.map (fun kv =>
      "\"" ++ escapeJson kv.1 ++ "\": \"" ++ escapeJson kv.2 ++ "\""))
  ++ "\x7d"

/-- Embeds the expression `json.dumps(metadata) if metadata else None`
from `log_notification` (`src/server/api.py` line 85).  In Python both
`None` and the empty dict are falsy, so both store NULL. -/
def metaStored (meta : Option MetaDict) : Option String :=
  match meta with
  | some m => if m.isEmpty then none else some (jsonDumps m)
  | none => none

/-- Embeds `APIServer.log_notification` (`src/server/api.py` lines
79-87): INSERT one row into `notifications` with the next AUTOINCREMENT
id and the current timestamp.  `writeFails` models the underlying SQLite
write raising; in that case nothing is inserted and the exception
propagates to the caller. -/
def logNotification (db : DB) (userId : Int) (message : String)
    (meta : Option MetaDict) (stat : String) (now : Nat)
    (writeFails : Bool) : Except String DB :=
  if writeFails then .error "database write failed"
  else .ok { db with
    notifications := db.notifications ++
      [⟨db.nextNotificationId, userId, message, metaStored meta, now, stat⟩],
    nextNotificationId := db.nextNotificationId + 1 }

/-- A Python exception as it flows through `send_notification`: either a
`fastapi.HTTPException` (which subclasses `Exception`) or any other
exception, carrying its message. -/
inductive PyExn where
  | http (statusCode : Nat) (detail : String)
  | generic (msg : String)
  deriving DecidableEq

/-- Embeds Python `str(e)`: starlette's `HTTPException.__str__` renders
`"code: detail"`, other exceptions render their message. -/
def strOfExn (e : PyExn) : String :=
  match e with
  | .http c d => toString c ++ ": " ++ d
  | .generic m => m

/-- The response of the `/api/notify` endpoint: the 200 success
envelope, the 401 raised by the auth dependency, or a 500-class error
with its `detail` string. -/
inductive NotifyResponse where
  | ok (message : String)
  | unauthorized (detail : String)
  | serverError (detail : String)
  deriving DecidableEq

/-- Embeds the body of `send_notification` (`src/server/api.py` lines
119-157), entered after the auth dependency succeeded.  The `try` block
sends the Telegram message, logs the notification with status `sent` or
`failed`, then either returns the success envelope or raises
`HTTPException(500)`.  Faithful to the source, that raise happens inside
the `try`, so the `except Exception` clause catches it too; the handler
then logs a second record with status `error` and raises
`HTTPException(500, "Error sending notification: " + str(e))`.  If the
second log write also raises, that exception leaves the handler and the
framework answers with a generic 500.  `logFails1`/`logFails2` model the
two log writes failing.  Returns the response, the final database state,
and the list of Telegram send attempts. -/
def sendNotificationBody (db : DB) (user : UserInfo) (message : String)
    (meta : Option MetaDict) (now : Nat) (outcome : PlatformOutcome)
    (logFails1 logFails2 : Bool) :
    NotifyResponse × DB × List (Int × String) :=
  let sent := sendTelegramMessage user.chatId message outcome
  let tryBlock : Except (PyExn × DB) (NotifyResponse × DB) :=
    match logNotification db user.userId message meta
        (if sent.1 then "sent" else "failed") now logFails1 with
    | .error m => .error (.generic m, db)
    | .ok db2 =>
        if sent.1 then .ok (.ok "Notification sent successfully", db2)
        else .error (.http 500 "Failed to send Telegram message", db2)
  match tryBlock with
  | .ok r => (r.1, r.2, sent.2)
  | .error e =>
      match logNotification e.2 user.userId message meta "error" now
          logFails2 with
      | .error _ => (.serverError "Internal Server Error", e.2, sent.2)
      | .ok db3 =>
          (.serverError ("Error sending notification: " ++ strOfExn e.1),
           db3, sent.2)

/-- Embeds the full `/api/notify` request (`src/server/api.py` lines
91-103 and 114-157): the `get_current_user` dependency resolves the
bearer key via `get_user_by_api_key` (touching `last_active`); an
unknown key raises `HTTPException(401, "Invalid API key")` before the
handler body runs, so no delivery is attempted and nothing is logged. -/
def notifyEndpoint (db : DB) (apiKey message : String)
    (meta : Option MetaDict) (now : Nat) (outcome : PlatformOutcome)
    (logFails1 logFails2 : Bool) :
    NotifyResponse × DB × List (Int × String) :=
  match getUserByApiKey db apiKey now with
  | (some user, db1) =>
      sendNotificationBody db1 user message meta now outcome
        logFails1 logFails2
  | (none, db1) => (.unauthorized "Invalid API key", db1, [])

/-- The response of the `/api/validate` endpoint: the success envelope
carrying `user_id` and `last_active`, or the 401. -/
inductive ValidateResponse where
  | ok (userId : Int) (lastActive : Nat)
  | unauthorized (detail : String)
  deriving DecidableEq

/-- Embeds the `/api/validate` request (`src/server/api.py` lines
159-169): authenticate via `get_user_by_api_key`, then return the
`user_id` and `last_active` fields of the dict it produced. -/
def validateEndpoint (db : DB) (apiKey : String) (now : Nat) :
    ValidateResponse × DB :=
  match getUserByApiKey db apiKey now with
  | (some user, db1) => (.ok user.userId user.lastActive, db1)
  | (none, db1) => (.unauthorized "Invalid API key", db1)

/-- The byte count passed to `secrets.token_urlsafe` in
`generate_api_key` (`src/bot/telegram_bot.py` line 55): 16 random bytes,
i.e. 128 bits of randomness, rendered URL-safe. -/
def tokenUrlsafeBytes : Nat := 16

/-- Embeds `ExperimentBot.generate_api_key`: prepends `exp_` to the
URL-safe token drawn from `secrets.token_urlsafe(16)`; the token itself
is passed explicitly. -/
def generateApiKey (token : String) : String := "exp_" ++ token

/-- Embeds `ExperimentBot.get_or_create_user` (`src/bot/telegram_bot.py`
lines 57-81): if a row with this `user_id` exists, UPDATE its `chat_id`
and `last_active` and return the stored key unchanged; otherwise INSERT
a new row with a freshly generated key, `created_at` and `last_active`
defaulting to the current time. -/
def getOrCreateUser (db : DB) (userId chatId : Int) (now : Nat)
    (freshToken : String) : String × DB :=
  match db.users.find? (fun u => u.userId == userId) with
  | some u =>
      (u.apiKey, { db with users := db.users.map (fun v =>
         if v.userId == userId
         then { v with chatId := chatId, lastActive := now } else v) })
  | none =>
      (generateApiKey freshToken,
       { db with users := db.users ++
          [⟨userId, generateApiKey freshToken, chatId, now, now⟩] })

/-- Embeds `ExperimentBot.revoke_command` (`src/bot/telegram_bot.py`
lines 119-133): generate a new key, then UPDATE the row with this
`user_id` to carry it (an UPDATE matching no row changes nothing); the
new key is rendered back to the operator unconditionally. -/
def revokeCommand (db : DB) (userId : Int) (now : Nat)
    (freshToken : String) : String × DB :=
  (generateApiKey freshToken,
   { db with users := db.users.map (fun v =>
      if v.userId == userId
      then { v with apiKey := generateApiKey freshToken,
                    lastActive := now } else v) })

/-- If `u` is a member of `l`, satisfies `p`, and is the only member
satisfying `p`, then `find?` returns exactly `u`. -/
theorem find_eq_some_of_unique {α : Type} {l : List α} {u : α}
    {p : α → Bool} (hu : u ∈ l) (hp : p u = true)
    (huniq : ∀ v ∈ l, p v = true → v = u) : l.find? p = some u := by
  induction l with
  | nil => cases hu
  | cons a t ih =>
      by_cases hpa : p a = true
      · rw [List.find?_cons_of_pos _ hpa]
        exact congrArg some (huniq a (List.mem_cons_self a t) hpa)
      · rw [List.find?_cons_of_neg _ (by simpa using hpa)]
        have hut : u ∈ t := by
          rcases List.mem_cons.mp hu with h | h
          · rw [← h] at hpa; exact absurd hp hpa
          · exact h
        exact ih hut (fun v hv hpv => huniq v (List.mem_cons_of_mem a hv) hpv)

/-- C1: the spec requires that a notify call with a valid key create
exactly one Notification record, with status `failed` when the gateway
reports Unreachable.  The code violates this: the
`HTTPException(500, "Failed to send Telegram message")` raised on the
delivery-failed branch is itself inside the `try` block, so the
handler's own `except Exception` clause catches it and logs a second
record with status `error`.  Concretely: one registered user, a notify
with the valid key, the platform answering 502, both log writes
succeeding — the database ends with two Notification records, statuses
`failed` and `error`, and the caller receives the generic 500 built
from the re-caught exception. -/
theorem c1_notify_unreachable_double_log :
    (notifyEndpoint ⟨[⟨42, "exp_k1", 100, 0, 0⟩], [], 1⟩ "exp_k1" "hello"
        none 5 (.response 502) false false).2.1.notifications =
      [⟨1, 42, "hello", none, 5, "failed"⟩,
       ⟨2, 42, "hello", none, 5, "error"⟩] ∧
    (notifyEndpoint ⟨[⟨42, "exp_k1", 100, 0, 0⟩], [], 1⟩ "exp_k1" "hello"
        none 5 (.response 502) false false).1 =
      .serverError
        "Error sending notification: 500: Failed to send Telegram message" :=
  ⟨rfl, rfl⟩

/-- C2: a notify call whose API key matches no registered user is
answered with the 401 `Invalid API key` response, the database is left
unchanged (in particular no Notification record is created), and no
Telegram send attempt is issued. -/
theorem c2_invalid_key_rejected (db : DB) (apiKey message : String)
    (meta : Option MetaDict) (now : Nat) (outcome : PlatformOutcome)
    (f1 f2 : Bool) (h : ∀ u ∈ db.users, u.apiKey ≠ apiKey) :
    notifyEndpoint db apiKey message meta now outcome f1 f2 =
      (.unauthorized "Invalid API key", db, []) := by
  have hfind : db.users.find? (fun u => u.apiKey == apiKey) = none :=
    List.find?_eq_none.mpr (fun u hu => by simpa using h u hu)
  simp [notifyEndpoint, getUserByApiKey, hfind]

/-- Witness for C2 at a concrete store and key. -/
theorem c2_witness :
    notifyEndpoint ⟨[⟨42, "exp_k1", 100, 0, 0⟩], [], 1⟩ "exp_bad" "m"
        none 5 (.response 200) false false =
      (.unauthorized "Invalid API key",
       ⟨[⟨42, "exp_k1", 100, 0, 0⟩], [], 1⟩, []) :=
  c2_invalid_key_rejected _ _ _ _ _ _ _ _ (by decide)

/-- C5: the gateway issues exactly one send attempt, whose payload is
the raw text wrapped in the fixed notification banner; the call is
bounded by the 10-second timeout constant; and it returns `true`
exactly when the platform answered with status 200 — every other
outcome (a non-200 response, a network-level failure, or the timeout
expiring) yields `false`, never a fault escaping the boundary. -/
theorem c5_single_attempt_all_failures_unreachable (chatId : Int)
    (message : String) (outcome : PlatformOutcome) :
    (sendTelegramMessage chatId message outcome).2 =
      [(chatId, messageBanner ++ message)] ∧
    ((sendTelegramMessage chatId message outcome).1 = true ↔
      outcome = .response 200) ∧
    telegramTimeoutSeconds = 10 := by
  cases outcome with
  | response c =>
      exact ⟨rfl, by simp [sendTelegramMessage, requestsPost], rfl⟩
  | networkError m =>
      exact ⟨rfl, by simp [sendTelegramMessage, requestsPost], rfl⟩
  | timedOut =>
      exact ⟨rfl, by simp [sendTelegramMessage, requestsPost], rfl⟩

/-- C7 counterexample: the claim says a notify request with an empty
message is not processed into a Notification record.  The code has no
non-emptiness check (`message: str` in `NotificationRequest`), so an
empty message with a valid key is delivered and logged: the call
succeeds and the store gains a record whose message is the empty
string. -/
theorem c7_empty_message_is_recorded :
    (notifyEndpoint ⟨[⟨42, "exp_k1", 100, 0, 0⟩], [], 1⟩ "exp_k1" ""
        none 5 (.response 200) false false).2.1.notifications =
      [⟨1, 42, "", none, 5, "sent"⟩] ∧
    (notifyEndpoint ⟨[⟨42, "exp_k1", 100, 0, 0⟩], [], 1⟩ "exp_k1" ""
        none 5 (.response 200) false false).1 =
      .ok "Notification sent successfully" :=
  ⟨rfl, rfl⟩

/-- If a function fixes every element of a list, mapping it over the
list changes nothing. -/
theorem map_id_of_fixed {α : Type} {l : List α} {f : α → α}
    (h : ∀ a ∈ l, f a = a) : l.map f = l := by
  induction l with
  | nil => rfl
  | cons a t ih =>
      simp only [List.map_cons]
      rw [h a (List.mem_cons_self a t),
        ih (fun b hb => h b (List.mem_cons_of_mem a hb))]

/-- After authentication, a notify request whose first log write
succeeds appends one or two Notification records (two on the
delivery-failed path, where the handler re-catches its own 500), each
carrying the caller's message, the stored form of the caller's
metadata, the authenticated user id and the current timestamp; the log
grows only at the end. -/
theorem sendNotificationBody_appends (db : DB) (user : UserInfo)
    (message : String) (meta : Option MetaDict) (now : Nat)
    (outcome : PlatformOutcome) (f2 : Bool) :
    ∃ recs,
      (sendNotificationBody db user message meta now outcome
        false f2).2.1.notifications = db.notifications ++ recs ∧
      recs ≠ [] ∧
      ∀ r ∈ recs, r.message = message ∧ r.metadata = metaStored meta ∧
        r.userId = user.userId ∧ r.timestamp = now := by
  cases hs : (sendTelegramMessage user.chatId message outcome).1 with
  | true =>
      refine ⟨[⟨db.nextNotificationId, user.userId, message,
        metaStored meta, now, "sent"⟩], ?_, by simp, by simp⟩
      simp [sendNotificationBody, logNotification, hs]
  | false =>
      cases f2 with
      | false =>
          refine ⟨[⟨db.nextNotificationId, user.userId, message,
              metaStored meta, now, "failed"⟩,
            ⟨db.nextNotificationId + 1, user.userId, message,
              metaStored meta, now, "error"⟩], ?_, by simp, by simp⟩
          simp [sendNotificationBody, logNotification, hs]
      | true =>
          refine ⟨[⟨db.nextNotificationId, user.userId, message,
            metaStored meta, now, "failed"⟩], ?_, by simp, by simp⟩
          simp [sendNotificationBody, logNotification, hs]

/-- C7 amended: the relay performs no non-emptiness check on the
message — every notify call with a valid key (whose log writes
succeed) appends Notification records carrying the caller's message
verbatim, and this holds for the empty string exactly as for any
other message. -/
theorem c7_message_recorded_verbatim (db : DB) (apiKey message : String)
    (meta : Option MetaDict) (now : Nat) (outcome : PlatformOutcome)
    (f2 : Bool)
    (hauth : (getUserByApiKey db apiKey now).1.isSome = true) :
    ∃ recs,
      (notifyEndpoint db apiKey message meta now outcome
        false f2).2.1.notifications = db.notifications ++ recs ∧
      recs ≠ [] ∧ ∀ r ∈ recs, r.message = message := by
  cases hF : db.users.find? (fun u => u.apiKey == apiKey) with
  | none => simp [getUserByApiKey, hF] at hauth
  | some u =>
      have hne : notifyEndpoint db apiKey message meta now outcome
          false f2 =
          sendNotificationBody
            { db with users := db.users.map (fun v =>
                if v.apiKey == apiKey
                then { v with lastActive := now } else v) }
            ⟨u.userId, u.chatId, u.lastActive⟩ message meta now outcome
            false f2 := by
        simp [notifyEndpoint, getUserByApiKey, hF]
      rw [hne]
      obtain ⟨recs, h1, h2, h3⟩ :=
        sendNotificationBody_appends _ _ message meta now outcome f2
      exact ⟨recs, h1, h2, fun r hr => (h3 r hr).1⟩

/-- Witness for C7's amended theorem: an accepted notify call with the
empty message still appends records, each carrying the empty message. -/
theorem c7_witness :
    ∃ recs,
      (notifyEndpoint ⟨[⟨42, "exp_k1", 100, 0, 0⟩], [], 1⟩ "exp_k1" ""
        none 5 (.response 200) false false).2.1.notifications =
        ([] : List Notification) ++ recs ∧
      recs ≠ [] ∧ ∀ r ∈ recs, r.message = "" :=
  c7_message_recorded_verbatim ⟨[⟨42, "exp_k1", 100, 0, 0⟩], [], 1⟩
    "exp_k1" "" none 5 (.response 200) false (by decide)

/-- C8 counterexample: the claim says a present metadata object is
recorded with its content intact.  The caller passes the present (but
empty) metadata object; `json.dumps(metadata) if metadata else None`
evaluates the empty dict as falsy, so the record stores NULL — the
present object is recorded as absent. -/
theorem c8_empty_metadata_dropped :
    (notifyEndpoint ⟨[⟨42, "exp_k1", 100, 0, 0⟩], [], 1⟩ "exp_k1" "m"
        (some []) 5 (.response 200) false false).2.1.notifications =
      [⟨1, 42, "m", none, 5, "sent"⟩] := rfl

/-- C8 amended: absent metadata and a present-but-empty metadata
object are both recorded as absent; a present non-empty metadata
object is recorded as its JSON serialization, with its content
intact and uninterpreted. -/
theorem c8_nonempty_metadata_recorded_intact (db : DB)
    (apiKey message : String) (m : MetaDict) (now : Nat)
    (outcome : PlatformOutcome) (f2 : Bool)
    (hauth : (getUserByApiKey db apiKey now).1.isSome = true)
    (hm : m.isEmpty = false) :
    ∃ recs,
      (notifyEndpoint db apiKey message (some m) now outcome
        false f2).2.1.notifications = db.notifications ++ recs ∧
      recs ≠ [] ∧ ∀ r ∈ recs, r.metadata = some (jsonDumps m) := by
  cases hF : db.users.find? (fun u => u.apiKey == apiKey) with
  | none => simp [getUserByApiKey, hF] at hauth
  | some u =>
      have hne : notifyEndpoint db apiKey message (some m) now outcome
          false f2 =
          sendNotificationBody
            { db with users := db.users.map (fun v =>
                if v.apiKey == apiKey
                then { v with lastActive := now } else v) }
            ⟨u.userId, u.chatId, u.lastActive⟩ message (some m) now
            outcome false f2 := by
        simp [notifyEndpoint, getUserByApiKey, hF]
      rw [hne]
      obtain ⟨recs, h1, h2, h3⟩ :=
        sendNotificationBody_appends _ _ message (some m) now outcome f2
      refine ⟨recs, h1, h2, fun r hr => ?_⟩
      rw [(h3 r hr).2.1]
      simp [metaStored, hm]

/-- Witness for C8's amended theorem at a one-entry metadata dict. -/
theorem c8_witness :
    ∃ recs,
      (notifyEndpoint ⟨[⟨42, "exp_k1", 100, 0, 0⟩], [], 1⟩ "exp_k1" "m"
        (some [("k", "v")]) 5 (.response 200) false
        false).2.1.notifications =
        ([] : List Notification) ++ recs ∧
      recs ≠ [] ∧ ∀ r ∈ recs, r.metadata = some (jsonDumps [("k", "v")]) :=
  c8_nonempty_metadata_recorded_intact
    ⟨[⟨42, "exp_k1", 100, 0, 0⟩], [], 1⟩ "exp_k1" "m" [("k", "v")] 5
    (.response 200) false (by decide) (by decide)

/-- C9: issuing the revoke command for an operator id that was never
registered leaves the store completely unchanged (the UPDATE matches no
row), the freshly generated key is still rendered back, and that key
does not resolve to any operator afterwards. -/
theorem c9_revoke_unknown_noop (db : DB) (userId : Int) (now : Nat)
    (freshToken : String)
    (hunknown : ∀ u ∈ db.users, u.userId ≠ userId)
    (hfresh : ∀ u ∈ db.users, u.apiKey ≠ generateApiKey freshToken) :
    (revokeCommand db userId now freshToken).2 = db ∧
    (revokeCommand db userId now freshToken).1 =
      generateApiKey freshToken ∧
    (getUserByApiKey (revokeCommand db userId now freshToken).2
      (revokeCommand db userId now freshToken).1 now).1 = none := by
  have hdb2 : (revokeCommand db userId now freshToken).2 = db := by
    show { db with users := db.users.map _ } = db
    rw [map_id_of_fixed (fun v hv => by simp [hunknown v hv])]
  refine ⟨hdb2, rfl, ?_⟩
  have hk1 : (revokeCommand db userId now freshToken).1 =
      generateApiKey freshToken := rfl
  rw [hdb2, hk1]
  have hfind : db.users.find?
      (fun u => u.apiKey == generateApiKey freshToken) = none :=
    List.find?_eq_none.mpr (fun u hu => by simpa using hfresh u hu)
  simp [getUserByApiKey, hfind]

/-- Witness for C9: revoking for the unregistered id 7 leaves the
one-user store untouched and yields a key that resolves to nobody. -/
theorem c9_witness :
    (revokeCommand ⟨[⟨42, "exp_k1", 100, 0, 0⟩], [], 1⟩ 7 9 "t2").2 =
      ⟨[⟨42, "exp_k1", 100, 0, 0⟩], [], 1⟩ ∧
    (revokeCommand ⟨[⟨42, "exp_k1", 100, 0, 0⟩], [], 1⟩ 7 9 "t2").1 =
      generateApiKey "t2" ∧
    (getUserByApiKey
      (revokeCommand ⟨[⟨42, "exp_k1", 100, 0, 0⟩], [], 1⟩ 7 9 "t2").2
      (revokeCommand ⟨[⟨42, "exp_k1", 100, 0, 0⟩], [], 1⟩ 7 9 "t2").1
      9).1 = none :=
  c9_revoke_unknown_noop ⟨[⟨42, "exp_k1", 100, 0, 0⟩], [], 1⟩ 7 9 "t2"
    (by decide) (by decide)

/-- C10: a successful validate call answers with the `last_active`
value that was stored before this request's own touch (the SELECT reads
it before the UPDATE overwrites it), while the store afterwards holds
the freshly written timestamp. -/
theorem c10_validate_returns_pre_touch (db : DB) (u : User) (now : Nat)
    (hu : u ∈ db.users)
    (hkey : ∀ v ∈ db.users, v.apiKey = u.apiKey → v = u) :
    (validateEndpoint db u.apiKey now).1 = .ok u.userId u.lastActive ∧
    ∀ v ∈ (validateEndpoint db u.apiKey now).2.users,
      v.apiKey = u.apiKey → v.lastActive = now := by
  have hfind : db.users.find? (fun v => v.apiKey == u.apiKey) = some u :=
    find_eq_some_of_unique hu (by simp)
      (fun v hv hpv => hkey v hv (by simpa using hpv))
  have husers : (validateEndpoint db u.apiKey now).2.users =
      db.users.map (fun v =>
        if v.apiKey == u.apiKey
        then { v with lastActive := now } else v) := by
    simp [validateEndpoint, getUserByApiKey, hfind]
  constructor
  · simp [validateEndpoint, getUserByApiKey, hfind]
  · intro v hv hvk
    rw [husers] at hv
    obtain ⟨w, hw, hwv⟩ := List.mem_map.mp hv
    by_cases hwk : w.apiKey = u.apiKey
    · rw [← hwv, if_pos (by simpa using hwk)]
    · exfalso
      rw [← hwv, if_neg (by simpa using hwk)] at hvk
      exact hwk hvk

/-- Witness for C10: with the stored `last_active` 3 and the request
arriving at time 7, validate answers 3 while the store now holds 7. -/
theorem c10_witness :
    (validateEndpoint ⟨[⟨42, "exp_k1", 100, 0, 3⟩], [], 1⟩ "exp_k1"
      7).1 = .ok 42 3 ∧
    ∀ v ∈ (validateEndpoint ⟨[⟨42, "exp_k1", 100, 0, 3⟩], [], 1⟩
        "exp_k1" 7).2.users,
      v.apiKey = "exp_k1" → v.lastActive = 7 :=
  c10_validate_returns_pre_touch ⟨[⟨42, "exp_k1", 100, 0, 3⟩], [], 1⟩
    ⟨42, "exp_k1", 100, 0, 3⟩ 7 (by decide) (by decide)

/-- C3: with the UNIQUE constraints of the `users` table (keys and ids
each identify at most one row) and a fresh rotation token, resolving a
registered operator's key returns that operator's id; after the revoke
command rotates the key, the old key no longer resolves at all, while
validate with the returned new key succeeds and answers with the same
operator id (its `last_active` now carrying the rotation timestamp). -/
theorem c3_rotate_key_roundtrip (db : DB) (u : User)
    (now1 now2 now3 now4 : Nat) (freshToken : String)
    (hu : u ∈ db.users)
    (hkey : ∀ v ∈ db.users, v.apiKey = u.apiKey → v = u)
    (hid : ∀ v ∈ db.users, v.userId = u.userId → v = u)
    (hfresh : ∀ v ∈ db.users, v.apiKey ≠ generateApiKey freshToken) :
    (getUserByApiKey db u.apiKey now1).1 =
      some ⟨u.userId, u.chatId, u.lastActive⟩ ∧
    (getUserByApiKey (revokeCommand db u.userId now2 freshToken).2
      u.apiKey now3).1 = none ∧
    (validateEndpoint (revokeCommand db u.userId now2 freshToken).2
      (revokeCommand db u.userId now2 freshToken).1 now4).1 =
      .ok u.userId now2 := by
  have hfind1 : db.users.find? (fun v => v.apiKey == u.apiKey) = some u :=
    find_eq_some_of_unique hu (by simp)
      (fun v hv hpv => hkey v hv (by simpa using hpv))
  have husers2 : (revokeCommand db u.userId now2 freshToken).2.users =
      db.users.map (fun v =>
        if v.userId == u.userId
        then { v with apiKey := generateApiKey freshToken,
                      lastActive := now2 } else v) := rfl
  have hk1 : (revokeCommand db u.userId now2 freshToken).1 =
      generateApiKey freshToken := rfl
  have hfind2 : (db.users.map (fun v =>
      if v.userId == u.userId
      then { v with apiKey := generateApiKey freshToken,
                    lastActive := now2 } else v)).find?
      (fun v => v.apiKey == u.apiKey) = none := by
    refine List.find?_eq_none.mpr ?_
    intro x hx
    obtain ⟨v, hv, hvx⟩ := List.mem_map.mp hx
    by_cases hv' : v.userId = u.userId
    · rw [← hvx, if_pos (by simpa using hv')]
      simp only [beq_iff_eq]
      intro hEq
      exact hfresh u hu hEq.symm
    · rw [← hvx, if_neg (by simpa using hv')]
      simp only [beq_iff_eq]
      intro hEq
      exact hv' (congrArg User.userId (hkey v hv hEq))
  have hfu : { u with apiKey := generateApiKey freshToken,
                      lastActive := now2 } ∈ db.users.map (fun v =>
        if v.userId == u.userId
        then { v with apiKey := generateApiKey freshToken,
                      lastActive := now2 } else v) := by
    have := List.mem_map_of_mem (fun v =>
      if v.userId == u.userId
      then { v with apiKey := generateApiKey freshToken,
                    lastActive := now2 } else v) hu
    simpa using this
  have hfind3 : (db.users.map (fun v =>
      if v.userId == u.userId
      then { v with apiKey := generateApiKey freshToken,
                    lastActive := now2 } else v)).find?
      (fun v => v.apiKey == generateApiKey freshToken) =
      some { u with apiKey := generateApiKey freshToken,
                    lastActive := now2 } := by
    refine find_eq_some_of_unique hfu (by simp) ?_
    intro w hw hpw
    obtain ⟨v, hv, hvw⟩ := List.mem_map.mp hw
    by_cases hv' : v.userId = u.userId
    · rw [← hvw, if_pos (by simpa using hv'), hid v hv hv']
    · exfalso
      rw [← hvw, if_neg (by simpa using hv')] at hpw
      exact hfresh v hv (by simpa using hpw)
  refine ⟨by simp [getUserByApiKey, hfind1], ?_, ?_⟩
  · have h2 : getUserByApiKey (revokeCommand db u.userId now2 freshToken).2
        u.apiKey now3 =
        (none, (revokeCommand db u.userId now2 freshToken).2) := by
      unfold getUserByApiKey
      rw [husers2, hfind2]
    rw [h2]
  · unfold validateEndpoint getUserByApiKey
    rw [hk1, husers2, hfind3]

/-- Witness for C3: register operator 42 with key `exp_k1`, rotate with
token `t2`; the old key stops resolving, validate with the new key
still answers operator 42. -/
theorem c3_witness :
    (getUserByApiKey ⟨[⟨42, "exp_k1", 100, 0, 0⟩], [], 1⟩ "exp_k1"
      1).1 = some ⟨42, 100, 0⟩ ∧
    (getUserByApiKey
      (revokeCommand ⟨[⟨42, "exp_k1", 100, 0, 0⟩], [], 1⟩ 42 2 "t2").2
      "exp_k1" 3).1 = none ∧
    (validateEndpoint
      (revokeCommand ⟨[⟨42, "exp_k1", 100, 0, 0⟩], [], 1⟩ 42 2 "t2").2
      (revokeCommand ⟨[⟨42, "exp_k1", 100, 0, 0⟩], [], 1⟩ 42 2 "t2").1
      4).1 = .ok 42 2 :=
  c3_rotate_key_roundtrip ⟨[⟨42, "exp_k1", 100, 0, 0⟩], [], 1⟩
    ⟨42, "exp_k1", 100, 0, 0⟩ 1 2 3 4 "t2" (by decide) (by decide)
    (by decide) (by decide)

/-- C4: an authenticated notify call never reports success while
leaving no Notification record — the success envelope is only returned
after the log write appended exactly one record — and when the log
write fails the request is answered with a 500-class server error,
never with success and never silently. -/
theorem c4_no_success_without_record (db : DB) (apiKey message : String)
    (meta : Option MetaDict) (now : Nat) (outcome : PlatformOutcome)
    (f1 f2 : Bool)
    (hauth : (getUserByApiKey db apiKey now).1.isSome = true) :
    ((∃ s, (notifyEndpoint db apiKey message meta now outcome f1
        f2).1 = .ok s) →
      ∃ r, (notifyEndpoint db apiKey message meta now outcome f1
        f2).2.1.notifications = db.notifications ++ [r]) ∧
    (f1 = true →
      ∃ d, (notifyEndpoint db apiKey message meta now outcome f1
        f2).1 = .serverError d) := by
  cases hF : db.users.find? (fun v => v.apiKey == apiKey) with
  | none => simp [getUserByApiKey, hF] at hauth
  | some u =>
      constructor
      · rintro ⟨s, hs⟩
        cases f1 with
        | true =>
            cases f2 <;>
              simp [notifyEndpoint, getUserByApiKey, hF,
                sendNotificationBody, logNotification] at hs
        | false =>
            cases hsend : (sendTelegramMessage u.chatId message
                outcome).1 with
            | false =>
                cases f2 <;>
                  simp [notifyEndpoint, getUserByApiKey, hF,
                    sendNotificationBody, logNotification, hsend] at hs
            | true =>
                refine ⟨⟨db.nextNotificationId, u.userId, message,
                  metaStored meta, now, "sent"⟩, ?_⟩
                simp [notifyEndpoint, getUserByApiKey, hF,
                  sendNotificationBody, logNotification, hsend]
      · intro hf1
        subst hf1
        cases f2 with
        | false =>
            exact ⟨"Error sending notification: database write failed",
              by simp [notifyEndpoint, getUserByApiKey, hF,
                sendNotificationBody, logNotification, strOfExn]⟩
        | true =>
            exact ⟨"Internal Server Error",
              by simp [notifyEndpoint, getUserByApiKey, hF,
                sendNotificationBody, logNotification]⟩

/-- Witness for C4, exercising both directions: a successful notify
leaves exactly one new record, and the same call with the log write
failing is answered with a server error. -/
theorem c4_witness :
    (∃ r, (notifyEndpoint ⟨[⟨42, "exp_k1", 100, 0, 0⟩], [], 1⟩ "exp_k1"
        "m" none 5 (.response 200) false false).2.1.notifications =
        ([] : List Notification) ++ [r]) ∧
    (∃ d, (notifyEndpoint ⟨[⟨42, "exp_k1", 100, 0, 0⟩], [], 1⟩ "exp_k1"
        "m" none 5 (.response 200) true false).1 = .serverError d) :=
  ⟨(c4_no_success_without_record ⟨[⟨42, "exp_k1", 100, 0, 0⟩], [], 1⟩
      "exp_k1" "m" none 5 (.response 200) false false (by decide)).1
      ⟨"Notification sent successfully", rfl⟩,
   (c4_no_success_without_record ⟨[⟨42, "exp_k1", 100, 0, 0⟩], [], 1⟩
      "exp_k1" "m" none 5 (.response 200) true false (by decide)).2
      rfl⟩

/-- C6: register-or-touch.  For an unknown operator id the store gains
exactly one new record carrying the freshly generated key — the
URL-safe token prefixed with `exp_`, the token drawn from 16 random
bytes, i.e. at least 128 bits of randomness — with `created_at` and
`last_active` set to the current time; for a known operator the stored
key is returned unchanged while `chat_id` and `last_active` are
updated and every row keeps its operator id, key and creation time. -/
theorem c6_register_or_touch (db : DB) (userId chatId : Int) (now : Nat)
    (freshToken : String) :
    (db.users.find? (fun v => v.userId == userId) = none →
      getOrCreateUser db userId chatId now freshToken =
        ("exp_" ++ freshToken,
         { db with users := db.users ++
            [⟨userId, "exp_" ++ freshToken, chatId, now, now⟩] }) ∧
      8 * tokenUrlsafeBytes = 128) ∧
    (∀ u, db.users.find? (fun v => v.userId == userId) = some u →
      (getOrCreateUser db userId chatId now freshToken).1 = u.apiKey ∧
      (getOrCreateUser db userId chatId now freshToken).2.users =
        db.users.map (fun v =>
          if v.userId == userId
          then { v with chatId := chatId, lastActive := now } else v) ∧
      ∀ v ∈ db.users,
        (if v.userId == userId
         then { v with chatId := chatId, lastActive := now }
         else v).apiKey = v.apiKey ∧
        (if v.userId == userId
         then { v with chatId := chatId, lastActive := now }
         else v).userId = v.userId ∧
        (if v.userId == userId
         then { v with chatId := chatId, lastActive := now }
         else v).createdAt = v.createdAt) := by
  constructor
  · intro hF
    refine ⟨?_, rfl⟩
    simp [getOrCreateUser, hF, generateApiKey]
  · intro u hF
    refine ⟨?_, ?_, ?_⟩
    · simp [getOrCreateUser, hF]
    · simp [getOrCreateUser, hF]
    · intro v hv
      by_cases hv' : v.userId = userId
      · rw [if_pos (by simpa using hv')]
        exact ⟨rfl, rfl, rfl⟩
      · rw [if_neg (by simpa using hv')]
        exact ⟨rfl, rfl, rfl⟩

/-- Witness for C6, exercising both branches: first registration of
operator 42 creates the record with the fresh key, and a repeated
registration returns the stored key unchanged. -/
theorem c6_witness :
    (getOrCreateUser ⟨[], [], 1⟩ 42 100 5 "t1" =
      ("exp_" ++ "t1", ⟨[⟨42, "exp_" ++ "t1", 100, 5, 5⟩], [], 1⟩) ∧
      8 * tokenUrlsafeBytes = 128) ∧
    (getOrCreateUser ⟨[⟨42, "exp_k1", 100, 0, 0⟩], [], 1⟩ 42 200
      9 "t9").1 = "exp_k1" :=
  ⟨(c6_register_or_touch ⟨[], [], 1⟩ 42 100 5 "t1").1 rfl,
   ((c6_register_or_touch ⟨[⟨42, "exp_k1", 100, 0, 0⟩], [], 1⟩ 42 200
      9 "t9").2 ⟨42, "exp_k1", 100, 0, 0⟩ (by decide)).1⟩
